import Mathlib

/-!
Shallow embedding of the QuickBooks Online OAuth helper
(`src/auth/auth_demo.py`): the token lifecycle manager (`QboAuth`) and the
inline secret-store logic it contains (encrypted persistence of the refresh
token together with the realm id).

Modelling conventions:
* Python `None` is `Option.none`; a dict field that may be absent is an
  `Option`.
* The Fernet library (`cryptography.fernet`) is an external collaborator;
  it is modelled abstractly per its documented contract (authenticated
  symmetric encryption): a well-formed token records the key and plaintext
  it was produced from, any tampered or corrupted byte string is a value
  that no `encrypt` call produced and which `decrypt` rejects.
* HTTP exchanges (`requests.post`) are external: the response is an input
  parameter of the operation.
* The persisted token file (`qbo_tokens.json`) is explicit state of type
  `Option FileContent` (`none` = the file does not exist, mirroring
  `os.path.exists`).
* Python exceptions become `Except` errors; where the code mutates `self`
  before raising, the model returns the mutated state alongside the error.
-/

instance exceptDecEq {ε α : Type} [DecidableEq ε] [DecidableEq α] :
    DecidableEq (Except ε α)
  | .ok a, .ok b => decidable_of_iff (a = b) (by simp)
  | .ok _, .error _ => isFalse (by simp)
  | .error _, .ok _ => isFalse (by simp)
  | .error e, .error f => decidable_of_iff (e = f) (by simp)

/-- Abstract model of a Fernet ciphertext (external `cryptography.fernet`
library, an authenticated symmetric encryption scheme): `enc key plaintext`
is the token produced by `Fernet(key).encrypt(plaintext)`; `corrupted n`
stands for any byte string that is not a token produced by `encrypt` —
in particular any tampered or truncated token, which authenticated
decryption rejects. -/
inductive FernetToken where
  | enc (key : Nat) (plaintext : String)
  | corrupted (n : Nat)
deriving Repr, DecidableEq

/-- `Fernet(key).encrypt(pt)` (auth_demo.py line 99 and lines 141-143). -/
def fernetEncrypt (key : Nat) (pt : String) : FernetToken :=
  .enc key pt

/-- `Fernet(key).decrypt(tok)` (auth_demo.py lines 119-121): succeeds with
the original plaintext exactly when `tok` is a well-formed token produced
under the same key; raises `InvalidToken` (here `none`) otherwise. -/
def fernetDecrypt (key : Nat) : FernetToken → Option String
  | .enc k p => if k = key then some p else none
  | .corrupted _ => none

/-- The JSON object the code persists in `qbo_tokens.json`
(auth_demo.py lines 100-104 and 146-147): exactly the two entries
`"refresh_token"` (a Fernet ciphertext) and `"realm_id"`
(plain text, possibly `null`). -/
structure TokenFile where
  refresh_token : FernetToken
  realm_id : Option String
deriving Repr, DecidableEq

/-- Keys of the JSON object written by
`json.dump({"refresh_token": ..., "realm_id": ...}, f)`
(auth_demo.py lines 101-104). -/
def TokenFile.keys : List String :=
  ["refresh_token", "realm_id"]

/-- Content of the token file on disk: either the complete JSON dump of a
`TokenFile`, or a truncated file (as left behind by `open(TOKEN_FILE, "w")`
before `json.dump` completes), on which `json.load` fails. -/
inductive FileContent where
  | json (tf : TokenFile)
  | truncated
deriving Repr, DecidableEq

/-- `json.load` on the token file (auth_demo.py line 114): yields the stored
object, or raises a decode error on a truncated file. -/
def json_load : FileContent → Except String TokenFile
  | .json tf => .ok tf
  | .truncated => .error "JSONDecodeError"

/-- The sequence of file contents observable while the code rewrites the
token file: `open(TOKEN_FILE, "w")` truncates the file in place, then
`json.dump` writes the complete object (auth_demo.py lines 100-104 and
146-147).  An interruption leaves the file at one of these states. -/
def json_dump_states (tf : TokenFile) : List FileContent :=
  [.truncated, .json tf]

/-- The file content after the rewrite completes (last of
`json_dump_states`). -/
def file_after_write (tf : TokenFile) : FileContent :=
  .json tf

/-- Errors raised by the auth module: `keyError f` is Python's `KeyError`
on dict subscript `[f]`; `jsonDecodeError` is `json.load` failing;
`invalidToken` is Fernet's `InvalidToken` on decrypt; `authFailed` is the
`Exception("Auth failed: ...")` raised on a non-200 authorization-code
exchange (auth_demo.py lines 90-91); `realmUnavailable` is the
`Exception("realmId not available...")` in `get_realm_id`
(auth_demo.py line 175). -/
inductive AuthError where
  | keyError (field : String)
  | jsonDecodeError
  | invalidToken
  | authFailed
  | realmUnavailable
deriving Repr, DecidableEq

/-- The decrypted logical credential bundle the store round-trips:
the refresh token (plaintext) together with the realm id. -/
structure Bundle where
  refresh_token : String
  realm_id : Option String
deriving Repr, DecidableEq

/-- The secret-store save: encrypt the refresh token under `key` and dump
the two-field JSON object (auth_demo.py lines 97-104; the same shape is
rewritten at lines 141-147). -/
def save_bundle (key : Nat) (b : Bundle) : FileContent :=
  .json { refresh_token := fernetEncrypt key b.refresh_token,
          realm_id := b.realm_id }

/-- The secret-store load: parse the JSON file, take the
`"refresh_token"` entry, decrypt it under `key`, and read the
`"realm_id"` entry (auth_demo.py lines 112-121). -/
def load_bundle (key : Nat) (c : FileContent) : Except AuthError Bundle :=
  match json_load c with
  | .error _ => .error .jsonDecodeError
  | .ok tf =>
    match fernetDecrypt key tf.refresh_token with
    | none => .error .invalidToken
    | some rt => .ok { refresh_token := rt, realm_id := tf.realm_id }

/-- Whether the persisted file state is well-formed: absent, or a complete
JSON object whose refresh token decrypts under the store's key. -/
def bundleWf (key : Nat) : Option FileContent → Bool
  | none => true
  | some c =>
    match load_bundle key c with
    | .ok _ => true
    | .error _ => false

/-- In-memory state of a `QboAuth` instance.  `realm_id` is doubly
optional: the outer layer models Python attribute presence (`hasattr`,
checked by `get_realm_id` at auth_demo.py line 174), the inner layer the
value `None` versus a string.  `__init__` (lines 31-34) always assigns the
attribute, so states reachable from `qboAuthInit` always carry `some _`. -/
structure AuthState where
  access_token : Option String
  realm_id : Option (Option String)
deriving Repr, DecidableEq

/-- `QboAuth.__init__` (auth_demo.py lines 31-34): sets both
`self.access_token` and `self.realm_id` to `None`. -/
def qboAuthInit : AuthState :=
  { access_token := none, realm_id := some none }

/-- JSON body and status of a token-endpoint response
(`resp.status_code`, `resp.json()`): the code reads
`["access_token"]` (KeyError if absent) and `.get("refresh_token")`
(None if absent). -/
structure TokenResponse where
  status_code : Nat
  access_token : Option String
  refresh_token : Option String
deriving Repr, DecidableEq

/-- Query parameters parsed from the pasted redirect URL
(auth_demo.py lines 71-74): `query_params["code"][0]` raises KeyError if
`code` is absent; `query_params.get("realmId", [None])[0]` defaults to
`None`. -/
structure CallbackQuery where
  code : Option String
  realmId : Option String
deriving Repr, DecidableEq

/-- Result of one operation on a `QboAuth` instance: the returned value or
raised error, the instance state afterwards, and the token file
afterwards. -/
structure AuthOpResult (α : Type) where
  result : Except AuthError α
  st : AuthState
  fs : Option FileContent
deriving Repr, DecidableEq

/-- How a call to `QboAuth.get_access_token` (auth_demo.py lines 109-153)
ends: `returned tok` is the `return self.access_token` inside the rotation
branch (line 148); `fallthrough` is reaching line 153,
`return self.authenticate_first_time()` — the manager proceeds to the
interactive authorization flow. -/
inductive RefreshOutcome where
  | returned (tok : String)
  | fallthrough
deriving Repr, DecidableEq

/-- `QboAuth.authenticate_first_time` (auth_demo.py lines 50-107), with the
browser interaction abstracted: `cb` is the query of the pasted redirect
URL and `resp` the token endpoint's response to the authorization-code
exchange.  Mirrors the code's order: parse `code` (KeyError if absent,
line 73), default `realmId` to None (line 74), raise on non-200 (lines
90-91), set `self.access_token` and `self.realm_id` (lines 94-95), read
`tokens["refresh_token"]` (KeyError if absent, line 98), then encrypt and
dump the two-field JSON object (lines 99-104) and return the access
token (line 107). -/
def authenticate_first_time (key : Nat) (st : AuthState)
    (fs : Option FileContent) (cb : CallbackQuery) (resp : TokenResponse) :
    AuthOpResult String :=
  match cb.code with
  | none => ⟨.error (.keyError "code"), st, fs⟩
  | some _code =>
    let realm_id := cb.realmId
    if resp.status_code = 200 then
      match resp.access_token with
      | none => ⟨.error (.keyError "access_token"), st, fs⟩
      | some tok =>
        let st1 : AuthState :=
          { access_token := some tok, realm_id := some realm_id }
        match resp.refresh_token with
        | none => ⟨.error (.keyError "refresh_token"), st1, fs⟩
        | some refresh_token =>
          let tf : TokenFile :=
            { refresh_token := fernetEncrypt key refresh_token,
              realm_id := realm_id }
          ⟨.ok tok, st1, some (file_after_write tf)⟩
    else
      ⟨.error .authFailed, st, fs⟩

/-- `QboAuth.get_access_token` (auth_demo.py lines 109-153), up to the
final `return self.authenticate_first_time()` which is reported as
`RefreshOutcome.fallthrough`.  Mirrors the code: if the token file exists,
`json.load` it (line 114), assign `self.realm_id = data.get("realm_id")`
(line 117), Fernet-decrypt the stored refresh token (lines 119-121), POST
the refresh grant (the response is the parameter `resp`); on 200 set
`self.access_token` (line 136) and, only if the response carries a truthy
`refresh_token` (`if new_refresh:` at line 140 — falsy both when the
field is absent, Python `None`, and when it is the empty string),
re-encrypt it into `data` and rewrite the file, returning the access
token (lines 139-148); on non-200 `os.remove` the file (line 150); every
remaining path falls through to the interactive flow (line 153). -/
def get_access_token (key : Nat) (st : AuthState) (fs : Option FileContent)
    (resp : TokenResponse) : AuthOpResult RefreshOutcome :=
  match fs with
  | none => ⟨.ok .fallthrough, st, none⟩
  | some c =>
    match json_load c with
    | .error _ => ⟨.error .jsonDecodeError, st, fs⟩
    | .ok data =>
      let st1 : AuthState := { st with realm_id := some data.realm_id }
      match fernetDecrypt key data.refresh_token with
      | none => ⟨.error .invalidToken, st1, fs⟩
      | some _refresh_token =>
        if resp.status_code = 200 then
          match resp.access_token with
          | none => ⟨.error (.keyError "access_token"), st1, fs⟩
          | some tok =>
            let st2 : AuthState := { st1 with access_token := some tok }
            match resp.refresh_token with
            | some new_refresh =>
              if new_refresh = "" then ⟨.ok .fallthrough, st2, fs⟩
              else
                let data1 : TokenFile :=
                  { data with
                      refresh_token := fernetEncrypt key new_refresh }
                ⟨.ok (.returned tok), st2, some (file_after_write data1)⟩
            | none => ⟨.ok .fallthrough, st2, fs⟩
        else
          ⟨.ok .fallthrough, st1, none⟩

/-- Module-level `get_realm_id` (auth_demo.py lines 169-176): raises only
when the instance has no `realm_id` attribute at all; otherwise returns
the attribute's value, even when that value is `None`. -/
def get_realm_id (st : AuthState) : Except AuthError (Option String) :=
  match st.realm_id with
  | none => .error .realmUnavailable
  | some v => .ok v

/-! ## Claims -/

/-- C9: For every credential bundle B, saving B via the secret store and
then loading it back under the same encryption key yields a bundle equal
to B — encrypt-then-decrypt round-trips every persisted field value
unchanged. -/
theorem save_load_roundtrip (key : Nat) (b : Bundle) :
    load_bundle key (save_bundle key b) = .ok b := by
  simp [load_bundle, save_bundle, json_load, fernetEncrypt, fernetDecrypt]

/-- C4: called on a freshly constructed instance, before any authorization
has ever completed, `get_realm_id` does NOT raise: `__init__` always sets
`self.realm_id = None`, so the `hasattr` guard never fires and the call
silently returns `None`.  This evaluates the model at the failing input of
the code bug. -/
theorem get_realm_id_fresh_returns_none_silently :
    get_realm_id qboAuthInit = .ok none := by
  rfl

/-- C1: with a valid bundle on disk and a refresh response that is HTTP 200
with a new access token `"AT2"` but no `refresh_token` field, the code does
NOT return `"AT2"` from the refresh branch: the `return` at line 148 sits
inside `if new_refresh:`, so control falls through to
`return self.authenticate_first_time()` — the interactive flow IS
triggered (the bundle file is indeed left unchanged, and `"AT2"` is only
stored in memory).  This evaluates the model at the failing input of the
code bug. -/
theorem refresh_without_rotation_triggers_interactive :
    get_access_token 0 qboAuthInit
      (some (.json { refresh_token := fernetEncrypt 0 "RT1",
                     realm_id := some "R1" }))
      { status_code := 200, access_token := some "AT2",
        refresh_token := none }
    = { result := .ok .fallthrough,
        st := { access_token := some "AT2", realm_id := some (some "R1") },
        fs := some (.json { refresh_token := fernetEncrypt 0 "RT1",
                            realm_id := some "R1" }) } := by
  rfl

/-- C2: with a valid (decryptable) bundle on disk, a refresh response with
any non-200 status makes `get_access_token` remove the token file
(`os.remove`, line 150) and fall through to the interactive authorization
flow (line 153): afterwards the file no longer exists. -/
theorem refresh_non200_removes_bundle_and_falls_back
    (key : Nat) (st : AuthState) (tf : TokenFile) (resp : TokenResponse)
    (hvalid : (fernetDecrypt key tf.refresh_token).isSome = true)
    (hstatus : resp.status_code ≠ 200) :
    (get_access_token key st (some (.json tf)) resp).fs = none ∧
    (get_access_token key st (some (.json tf)) resp).result
      = .ok .fallthrough := by
  obtain ⟨rt, hrt⟩ := Option.isSome_iff_exists.mp hvalid
  constructor <;> simp [get_access_token, json_load, hrt, hstatus]

theorem refresh_non200_removes_bundle_and_falls_back_witness :
    (fernetDecrypt 0 (fernetEncrypt 0 "RT")).isSome = true ∧
    (400 : Nat) ≠ 200 ∧
    ((get_access_token 0 qboAuthInit
        (some (.json { refresh_token := fernetEncrypt 0 "RT",
                       realm_id := some "R" }))
        { status_code := 400, access_token := none,
          refresh_token := none }).fs = none ∧
      (get_access_token 0 qboAuthInit
        (some (.json { refresh_token := fernetEncrypt 0 "RT",
                       realm_id := some "R" }))
        { status_code := 400, access_token := none,
          refresh_token := none }).result = .ok .fallthrough) :=
  ⟨by decide, by decide,
    refresh_non200_removes_bundle_and_falls_back 0 qboAuthInit
      { refresh_token := fernetEncrypt 0 "RT", realm_id := some "R" }
      { status_code := 400, access_token := none, refresh_token := none }
      (by decide) (by decide)⟩

/-- C3 counterexample: after a successful first-time authorization from an
empty store, the persisted JSON object does NOT contain `client_id` or
`client_secret` fields — the code only ever stores `refresh_token` and
`realm_id` (auth_demo.py lines 100-104); the client credentials are module
constants, never persisted.  So the claimed four-field well-formedness
fails at this concrete input. -/
theorem persisted_bundle_lacks_client_fields :
    (authenticate_first_time 0 qboAuthInit none
        { code := some "C", realmId := some "R" }
        { status_code := 200, access_token := some "AT",
          refresh_token := some "RT" }).fs
      = some (.json { refresh_token := fernetEncrypt 0 "RT",
                      realm_id := some "R" }) ∧
    "client_id" ∉ TokenFile.keys ∧ "client_secret" ∉ TokenFile.keys := by
  refine ⟨rfl, by decide, by decide⟩

/-- C3 amended: after either operation completes, the persisted bundle is
either fully absent or a complete JSON object with exactly the TWO fields
`refresh_token` (decryptable under the store's key) and `realm_id` —
`client_id` and `client_secret` are module constants and are never part of
the persisted file. -/
theorem persisted_bundle_two_field_invariant
    (key : Nat) (st st2 : AuthState) (fs : Option FileContent)
    (resp resp2 : TokenResponse) (cb : CallbackQuery)
    (h : bundleWf key fs = true) :
    TokenFile.keys = ["refresh_token", "realm_id"] ∧
    bundleWf key (get_access_token key st fs resp).fs = true ∧
    bundleWf key (authenticate_first_time key st2 fs cb resp2).fs = true := by
  refine ⟨rfl, ?_, ?_⟩
  · cases fs with
    | none => simp [get_access_token, bundleWf]
    | some c =>
      cases c with
      | truncated => exact absurd h (by simp [bundleWf, load_bundle, json_load])
      | json tf =>
        cases hdec : fernetDecrypt key tf.refresh_token with
        | none =>
          exact absurd h (by simp [bundleWf, load_bundle, json_load, hdec])
        | some rt =>
          by_cases hstatus : resp.status_code = 200
          · cases hat : resp.access_token with
            | none =>
              simpa [get_access_token, json_load, hdec, hstatus, hat] using h
            | some tok =>
              cases hnr : resp.refresh_token with
              | none =>
                simpa [get_access_token, json_load, hdec, hstatus, hat, hnr]
                  using h
              | some nr =>
                by_cases hne : nr = ""
                · simpa [get_access_token, json_load, hdec, hstatus, hat,
                         hnr, hne] using h
                · simp only [get_access_token, json_load, hdec, hstatus,
                             hat, hnr]
                  simp [hne, file_after_write, bundleWf, load_bundle,
                        json_load, fernetEncrypt, fernetDecrypt]
          · simp [get_access_token, json_load, hdec, hstatus, bundleWf]
  · cases hcode : cb.code with
    | none => simpa [authenticate_first_time, hcode] using h
    | some c0 =>
      by_cases hstatus : resp2.status_code = 200
      · cases hat : resp2.access_token with
        | none => simpa [authenticate_first_time, hcode, hstatus, hat] using h
        | some tok =>
          cases hrt : resp2.refresh_token with
          | none =>
            simpa [authenticate_first_time, hcode, hstatus, hat, hrt] using h
          | some rt =>
            simp [authenticate_first_time, hcode, hstatus, hat, hrt,
                  file_after_write, bundleWf, load_bundle, json_load,
                  fernetEncrypt, fernetDecrypt]
      · simpa [authenticate_first_time, hcode, hstatus] using h

theorem persisted_bundle_two_field_invariant_witness :
    bundleWf 0 (none : Option FileContent) = true ∧
    (TokenFile.keys = ["refresh_token", "realm_id"] ∧
      bundleWf 0 (get_access_token 0 qboAuthInit none
        { status_code := 200, access_token := some "AT",
          refresh_token := some "RT" }).fs = true ∧
      bundleWf 0 (authenticate_first_time 0 qboAuthInit none
        { code := some "C", realmId := some "R" }
        { status_code := 200, access_token := some "AT",
          refresh_token := some "RT" }).fs = true) :=
  ⟨by decide,
    persisted_bundle_two_field_invariant 0 qboAuthInit qboAuthInit none
      { status_code := 200, access_token := some "AT",
        refresh_token := some "RT" }
      { status_code := 200, access_token := some "AT",
        refresh_token := some "RT" }
      { code := some "C", realmId := some "R" }
      (by decide)⟩

/-- C5 counterexample: a previously valid bundle (`"OLD"`) is on disk and
a save of a new bundle (`"NEW"`) is interrupted right after
`open(TOKEN_FILE, "w")` truncates the file: the observable state
`truncated` is among the write's intermediate states, it is not the
previous file content, and it is not loadable — the previously valid
bundle is NOT left intact, so the save is not atomic. -/
theorem interrupted_save_destroys_previous_bundle :
    load_bundle 0 (.json { refresh_token := fernetEncrypt 0 "OLD",
                           realm_id := some "R" })
      = .ok { refresh_token := "OLD", realm_id := some "R" } ∧
    FileContent.truncated ∈
      json_dump_states { refresh_token := fernetEncrypt 0 "NEW",
                         realm_id := some "R" } ∧
    FileContent.truncated ≠
      FileContent.json { refresh_token := fernetEncrypt 0 "OLD",
                         realm_id := some "R" } ∧
    load_bundle 0 .truncated = .error .jsonDecodeError := by
  refine ⟨rfl, by simp [json_dump_states], by decide, rfl⟩

/-- C5 amended: the save is not atomic — the file is truncated in place
before the new contents are written, so an interruption leaves either a
truncated file (which is detectably corrupt: loading it fails, and the
previous bundle is lost) or the completely written new bundle; no
intermediate state is a silently wrong bundle. -/
theorem interrupted_save_truncated_or_complete
    (key : Nat) (tf : TokenFile) (c : FileContent)
    (h : c ∈ json_dump_states tf) :
    load_bundle key c = .error .jsonDecodeError ∨ c = .json tf := by
  simp only [json_dump_states, List.mem_cons, List.mem_singleton] at h
  rcases h with h | h | h
  · subst h
    exact Or.inl rfl
  · subst h
    exact Or.inr rfl
  · cases h

theorem interrupted_save_truncated_or_complete_witness :
    (FileContent.truncated ∈
      json_dump_states { refresh_token := fernetEncrypt 0 "NEW",
                         realm_id := none }) ∧
    (load_bundle 0 .truncated = .error .jsonDecodeError ∨
      FileContent.truncated
        = .json { refresh_token := fernetEncrypt 0 "NEW",
                  realm_id := none }) :=
  ⟨by simp [json_dump_states],
    interrupted_save_truncated_or_complete 0
      { refresh_token := fernetEncrypt 0 "NEW", realm_id := none }
      .truncated (by simp [json_dump_states])⟩

/-- C6 counterexample: save a bundle whose realm id is `"123"`, then change
a single byte of the stored `realm_id` field (`"123"` → `"124"`: same
length, exactly one differing character).  Loading the modified file does
NOT fail — it succeeds and returns a bundle whose realm id differs from
the one saved, because the code stores `realm_id` as plaintext JSON next
to the ciphertext and never integrity-checks it
(auth_demo.py lines 103 and 117). -/
theorem realm_id_tamper_not_detected :
    save_bundle 0 { refresh_token := "RT", realm_id := some "123" }
      = .json { refresh_token := fernetEncrypt 0 "RT",
                realm_id := some "123" } ∧
    "123".length = "124".length ∧
    (("123".data.zip "124".data).countP fun p => p.1 != p.2) = 1 ∧
    load_bundle 0 (.json { refresh_token := fernetEncrypt 0 "RT",
                           realm_id := some "124" })
      = .ok { refresh_token := "RT", realm_id := some "124" } ∧
    (some "124" : Option String) ≠ some "123" := by
  refine ⟨rfl, rfl, by decide, rfl, by decide⟩

/-- C6 amended: only the `refresh_token` ciphertext is tamper-protected —
any corruption of it makes decryption, and hence loading, fail with the
decrypt-time error; the `realm_id` field is stored as plaintext and is not
integrity-protected, so modifications to it are accepted silently. -/
theorem ciphertext_tamper_detected (key n : Nat) (realm : Option String) :
    load_bundle key (.json { refresh_token := .corrupted n,
                             realm_id := realm })
      = .error .invalidToken := by
  rfl

/-- C7 counterexample: a pasted redirect URL whose query has a `code` but
NO `realmId` does not fail: `query_params.get("realmId", [None])[0]`
defaults to `None` (auth_demo.py line 74), the flow proceeds, and a
credential bundle IS persisted (with a null realm id). -/
theorem missing_realmId_persists_bundle :
    authenticate_first_time 0 qboAuthInit none
      { code := some "C", realmId := none }
      { status_code := 200, access_token := some "AT",
        refresh_token := some "RT" }
    = { result := .ok "AT",
        st := { access_token := some "AT", realm_id := some none },
        fs := some (.json { refresh_token := fernetEncrypt 0 "RT",
                            realm_id := none }) } := by
  rfl

/-- C7 amended: a redirect URL without a `code` parameter makes the
interactive authorization fail (Python `KeyError` on
`query_params["code"]`) with no bundle persisted; a missing `realmId` is
tolerated — the realm defaults to `None` and the flow proceeds,
persisting a bundle whose `realm_id` is null. -/
theorem callback_code_required_realm_optional
    (key : Nat) (st : AuthState) (fs : Option FileContent)
    (cbA : CallbackQuery) (respA : TokenResponse)
    (cbB : CallbackQuery) (respB : TokenResponse)
    (c tok rt : String)
    (hA : cbA.code = none)
    (hB1 : cbB.code = some c) (hB2 : cbB.realmId = none)
    (hB3 : respB.status_code = 200)
    (hB4 : respB.access_token = some tok)
    (hB5 : respB.refresh_token = some rt) :
    (authenticate_first_time key st fs cbA respA).result
        = .error (.keyError "code") ∧
    (authenticate_first_time key st fs cbA respA).fs = fs ∧
    (authenticate_first_time key st fs cbB respB).result = .ok tok ∧
    (authenticate_first_time key st fs cbB respB).fs
      = some (.json { refresh_token := fernetEncrypt key rt,
                      realm_id := none }) := by
  refine ⟨?_, ?_, ?_, ?_⟩ <;>
    simp [authenticate_first_time, hA, hB1, hB2, hB3, hB4, hB5,
          file_after_write]

theorem callback_code_required_realm_optional_witness :
    (({ code := none, realmId := none } : CallbackQuery).code = none) ∧
    (({ code := some "C", realmId := none } : CallbackQuery).code
        = some "C") ∧
    ((authenticate_first_time 7 qboAuthInit none
        { code := none, realmId := none }
        { status_code := 200, access_token := some "AT",
          refresh_token := some "RT" }).result
       = .error (.keyError "code") ∧
      (authenticate_first_time 7 qboAuthInit none
        { code := none, realmId := none }
        { status_code := 200, access_token := some "AT",
          refresh_token := some "RT" }).fs = none ∧
      (authenticate_first_time 7 qboAuthInit none
        { code := some "C", realmId := none }
        { status_code := 200, access_token := some "AT",
          refresh_token := some "RT" }).result = .ok "AT" ∧
      (authenticate_first_time 7 qboAuthInit none
        { code := some "C", realmId := none }
        { status_code := 200, access_token := some "AT",
          refresh_token := some "RT" }).fs
        = some (.json { refresh_token := fernetEncrypt 7 "RT",
                        realm_id := none })) :=
  ⟨rfl, rfl,
    callback_code_required_realm_optional 7 qboAuthInit none
      { code := none, realmId := none }
      { status_code := 200, access_token := some "AT",
        refresh_token := some "RT" }
      { code := some "C", realmId := none }
      { status_code := 200, access_token := some "AT",
        refresh_token := some "RT" }
      "C" "AT" "RT" rfl rfl rfl rfl rfl rfl⟩

/-- C8 counterexample: a valid bundle on disk and a 200 refresh response
whose `refresh_token` field is present but is the EMPTY string: Python's
`if new_refresh:` (auth_demo.py line 140) is falsy for `""`, so the
program does not rewrite the file and does not return from the refresh
branch — it falls through to interactive authorization with the bundle
unchanged, refuting the claim as stated at this input. -/
theorem empty_refresh_token_not_persisted :
    get_access_token 0 qboAuthInit
      (some (.json { refresh_token := fernetEncrypt 0 "RT1",
                     realm_id := some "R" }))
      { status_code := 200, access_token := some "AT2",
        refresh_token := some "" }
    = { result := .ok .fallthrough,
        st := { access_token := some "AT2", realm_id := some (some "R") },
        fs := some (.json { refresh_token := fernetEncrypt 0 "RT1",
                            realm_id := some "R" }) } := by
  rfl

/-- C8 amended: with a valid bundle on disk and a 200 refresh response
carrying a new NON-EMPTY `refresh_token` (the code's `if new_refresh:`
truthiness test, falsy for the empty string), `get_access_token` returns
the response's access token from the refresh branch, and the persisted
file afterwards holds the new refresh token encrypted under the same key
(loading it back yields the new value, not the old one). -/
theorem refresh_rotation_persists_new_token
    (key : Nat) (st : AuthState) (tf : TokenFile) (resp : TokenResponse)
    (rt tok nr : String)
    (hdec : fernetDecrypt key tf.refresh_token = some rt)
    (h200 : resp.status_code = 200)
    (hat : resp.access_token = some tok)
    (hnr : resp.refresh_token = some nr)
    (hne : nr ≠ "") :
    (get_access_token key st (some (.json tf)) resp).result
        = .ok (.returned tok) ∧
    (get_access_token key st (some (.json tf)) resp).fs
      = some (.json { refresh_token := fernetEncrypt key nr,
                      realm_id := tf.realm_id }) ∧
    load_bundle key (.json { refresh_token := fernetEncrypt key nr,
                             realm_id := tf.realm_id })
      = .ok { refresh_token := nr, realm_id := tf.realm_id } := by
  refine ⟨?_, ?_, ?_⟩
  · simp [get_access_token, json_load, hdec, h200, hat, hnr, hne]
  · simp [get_access_token, json_load, hdec, h200, hat, hnr, hne,
          file_after_write]
  · simp [load_bundle, json_load, fernetEncrypt, fernetDecrypt]

theorem refresh_rotation_persists_new_token_witness :
    ("RT2" : String) ≠ "" ∧
    fernetDecrypt 0 (fernetEncrypt 0 "RT1") = some "RT1" ∧
    ((get_access_token 0 qboAuthInit
        (some (.json { refresh_token := fernetEncrypt 0 "RT1",
                       realm_id := some "R" }))
        { status_code := 200, access_token := some "AT2",
          refresh_token := some "RT2" }).result
        = .ok (.returned "AT2") ∧
      (get_access_token 0 qboAuthInit
        (some (.json { refresh_token := fernetEncrypt 0 "RT1",
                       realm_id := some "R" }))
        { status_code := 200, access_token := some "AT2",
          refresh_token := some "RT2" }).fs
        = some (.json { refresh_token := fernetEncrypt 0 "RT2",
                        realm_id := some "R" }) ∧
      load_bundle 0 (.json { refresh_token := fernetEncrypt 0 "RT2",
                             realm_id := some "R" })
        = .ok { refresh_token := "RT2", realm_id := some "R" }) :=
  ⟨by decide, rfl,
    refresh_rotation_persists_new_token 0 qboAuthInit
      { refresh_token := fernetEncrypt 0 "RT1", realm_id := some "R" }
      { status_code := 200, access_token := some "AT2",
        refresh_token := some "RT2" }
      "RT1" "AT2" "RT2" rfl rfl rfl rfl (by decide)⟩

/-- C10: when a 200 refresh response rotates the refresh token, the
rewritten token file differs from the loaded one only in its
`refresh_token` field — the stored `realm_id` after the write equals the
`realm_id` that was in the file before the write (the code rewrites the
same loaded `data` dict, auth_demo.py lines 144-147). -/
theorem refresh_rotation_preserves_realm
    (key : Nat) (st : AuthState) (tf : TokenFile) (resp : TokenResponse)
    (rt tok nr : String)
    (hdec : fernetDecrypt key tf.refresh_token = some rt)
    (h200 : resp.status_code = 200)
    (hat : resp.access_token = some tok)
    (hnr : resp.refresh_token = some nr) :
    ∃ tf2 : TokenFile,
      (get_access_token key st (some (.json tf)) resp).fs
        = some (.json tf2) ∧
      tf2.realm_id = tf.realm_id := by
  by_cases hne : nr = ""
  · refine ⟨tf, ?_, rfl⟩
    simp [get_access_token, json_load, hdec, h200, hat, hnr, hne]
  · refine ⟨{ refresh_token := fernetEncrypt key nr,
              realm_id := tf.realm_id }, ?_, rfl⟩
    simp only [get_access_token, json_load, hdec, h200, hat, hnr]
    simp [hne, file_after_write]

theorem refresh_rotation_preserves_realm_witness :
    fernetDecrypt 3 (fernetEncrypt 3 "RTa") = some "RTa" ∧
    ∃ tf2 : TokenFile,
      (get_access_token 3 qboAuthInit
        (some (.json { refresh_token := fernetEncrypt 3 "RTa",
                       realm_id := some "R9" }))
        { status_code := 200, access_token := some "ATb",
          refresh_token := some "RTc" }).fs
        = some (.json tf2) ∧
      tf2.realm_id
        = ({ refresh_token := fernetEncrypt 3 "RTa",
             realm_id := some "R9" } : TokenFile).realm_id :=
  ⟨rfl,
    refresh_rotation_preserves_realm 3 qboAuthInit
      { refresh_token := fernetEncrypt 3 "RTa", realm_id := some "R9" }
      { status_code := 200, access_token := some "ATb",
        refresh_token := some "RTc" }
      "RTa" "ATb" "RTc" rfl rfl rfl rfl⟩
